import Mathlib

/-!
Verification of the Agent Dispatch Gateway of the JuliaOS a2a sub-project:
the agent registry (src/a2a/src/a2a/agents/registry.py), the capability
card builder (card.py), the execution bridge Add2Executor (executors.py)
and the gateway composition (server.py), shallowly embedded in Lean.
Python exceptions become `Except` values, the event sink and the backend
calls made by one invocation are recorded in an explicit trace, and the
external backend runtime (juliaos) is a parameter of the bridge.
-/

namespace A2AGateway

/-- Python exception values raised by the gateway code. -/
inductive PyError where
  | valueError : String → PyError
  | indexError : String → PyError
  | exception : String → PyError
deriving DecidableEq

deriving instance DecidableEq for Except

/-- Embedding of the builtin `int(s)` applied to a string: strip
surrounding whitespace, accept one optional sign followed by a nonempty
run of decimal digits, and otherwise raise `ValueError`. -/
def digitsVal (cs : List Char) : Nat :=
  cs.foldl (fun acc c => acc * 10 + (c.toNat - 48)) 0

/-- Strip leading and trailing whitespace from a character list (the
stripping `int` performs on its string argument). -/
def stripChars (cs : List Char) : List Char :=
  ((cs.dropWhile Char.isWhitespace).reverse.dropWhile Char.isWhitespace).reverse

def pyInt (s : String) : Except PyError Int :=
  let cs := stripChars s.toList
  let signDigits : Int × List Char :=
    match cs with
    | '+' :: rest => (1, rest)
    | '-' :: rest => (-1, rest)
    | rest => (1, rest)
  if signDigits.2 ≠ [] ∧ signDigits.2.all Char.isDigit then
    .ok (signDigits.1 * Int.ofNat (digitsVal signDigits.2))
  else
    .error (.valueError ("invalid literal for int() with base 10: " ++ s))

/-- The payload `{"value": val}` passed to the backend webhook. -/
structure Payload where
  value : Int
deriving DecidableEq

/-- Behaviour of the external juliaos backend during one invocation:
the outcome of `juliaos.Agent.load(conn, "add2-agent")`, of
`jl_agent.call_webhook(payload)` for each payload, and the log list
`get_logs()["logs"]` visible afterwards. -/
structure BackendBehavior where
  loadResult : Except PyError Unit
  webhookResult : Payload → Except PyError Unit
  logsResult : Except PyError (List String)

/-- What one bridge invocation did: how many times it loaded the backend
handle, which webhook payloads it sent, and the texts of the events it
enqueued into the sink (the `EventQueue`). -/
structure ExecTrace where
  loads : Nat
  webhookCalls : List Payload
  events : List String
deriving DecidableEq

/-- Embedding of `Add2Executor.execute(context, event_queue)`
(executors.py): load the backend handle, parse the raw user input with
`int`, call the webhook with the parsed value, read the last log line
with `get_logs()["logs"][-1]`, and enqueue it as one text message.
There is no exception handler: any failure aborts the remaining steps
and propagates as the `Except.error` component. -/
def Add2Executor.execute (b : BackendBehavior) (userInput : String) :
    ExecTrace × Except PyError Unit :=
  match b.loadResult with
  | .error e => (⟨1, [], []⟩, .error e)
  | .ok _ =>
    match pyInt userInput with
    | .error e => (⟨1, [], []⟩, .error e)
    | .ok val =>
      match b.webhookResult ⟨val⟩ with
      | .error e => (⟨1, [⟨val⟩], []⟩, .error e)
      | .ok _ =>
        match b.logsResult with
        | .error e => (⟨1, [⟨val⟩], []⟩, .error e)
        | .ok logs =>
          match logs.getLast? with
          | none => (⟨1, [⟨val⟩], []⟩, .error (.indexError "list index out of range"))
          | some result => (⟨1, [⟨val⟩], [result]⟩, .ok ())

/-- Embedding of `Add2Executor.cancel(context, event_queue)`: it raises
`Exception("cancel not supported")` unconditionally, touching neither
the backend nor the event queue. -/
def Add2Executor.cancel : ExecTrace × Except PyError Unit :=
  (⟨0, [], []⟩, .error (.exception "cancel not supported"))

/-- A Python executor class object (`Type[AgentExecutor]`), identified
by its class name; the repository defines exactly `Add2Executor`. -/
structure ExecutorClass where
  clsName : String
deriving DecidableEq

def Add2ExecutorClass : ExecutorClass := ⟨"Add2Executor"⟩

/-- An executor instance produced by calling a class: the class it was
constructed from plus a creation serial number distinguishing the
objects produced by distinct constructor calls. -/
structure ExecutorInstance where
  cls : ExecutorClass
  instId : Nat
deriving DecidableEq

/-- The process-wide dict `AGENT_REGISTRY`, embedded as an association
list in insertion order with Python dict update semantics. -/
abbrev Registry := List (String × ExecutorClass)

/-- Embedding of `AGENT_REGISTRY.get(agent_id)`. -/
def registryLookup (reg : Registry) (agent_id : String) : Option ExecutorClass :=
  (reg.find? (fun p => p.1 = agent_id)).map Prod.snd

/-- Embedding of `register_agent` (registry.py): dict assignment, which
overwrites in place when the key is present and appends otherwise. -/
def register_agent (reg : Registry) (agent_id : String) (executor_cls : ExecutorClass) :
    Registry :=
  if reg.any (fun p => p.1 = agent_id) then
    reg.map (fun p => if p.1 = agent_id then (agent_id, executor_cls) else p)
  else
    reg ++ [(agent_id, executor_cls)]

/-- Embedding of `get_executor` (registry.py): look the class up, raise
`ValueError` when absent, otherwise call the class to construct a fresh
instance. The creation counter is threaded explicitly so that distinct
constructor calls yield provably distinct instances. -/
def get_executor (reg : Registry) (counter : Nat) (agent_id : String) :
    Except PyError (ExecutorInstance × Nat) :=
  match registryLookup reg agent_id with
  | none => .error (.valueError ("No executor registered for agent ID: " ++ agent_id))
  | some executor_cls => .ok (⟨executor_cls, counter⟩, counter + 1)

/-- Embedding of `register_all_agents` (agents/__init__.py). -/
def register_all_agents (reg : Registry) : Registry :=
  register_agent reg "add2-agent" Add2ExecutorClass

/-- The registry as populated at process startup, from the empty dict. -/
def startupRegistry : Registry := register_all_agents []

/-- One skill entry of a capability card (a2a.types.AgentSkill). -/
structure AgentSkill where
  id : String
  name : String
  description : String
  tags : List String
deriving DecidableEq

structure AgentCapabilities where
  streaming : Bool
deriving DecidableEq

/-- A capability card (a2a.types.AgentCard), with the fields card.py
populates. -/
structure AgentCard where
  name : String
  version : String
  description : String
  url : String
  capabilities : AgentCapabilities
  skills : List AgentSkill
  defaultInputModes : List String
  defaultOutputModes : List String
deriving DecidableEq

/-- The fixed skill table of card.py. -/
def skill_map : List (String × (String × String)) :=
  [("add2-agent", ("Add Two", "Adds +2 to input"))]

/-- Embedding of `skill_map.get(agent_id, ("Unknown", "Unknown"))`. -/
def skillMapGet (agent_id : String) : String × String :=
  ((skill_map.find? (fun p => p.1 = agent_id)).map Prod.snd).getD ("Unknown", "Unknown")

/-- The base address of the server as card.py derives it from the port. -/
def baseAddress (port : Nat) : String :=
  "http://127.0.0.1:" ++ toString port

/-- The protocol's fixed RPC sub-path used in both the card URL and the
rpc_url of each sub-application. -/
def fixedRpcPath : String := "a2a"

/-- Embedding of `make_agent_card` (card.py). -/
def make_agent_card (agent_id : String) (port : Nat) : AgentCard :=
  let nameDesc := skillMapGet agent_id
  { name := agent_id ++ " agent"
    version := "1.0"
    description := nameDesc.2
    url := "http://127.0.0.1:" ++ toString port ++ "/" ++ agent_id ++ "/a2a"
    capabilities := ⟨false⟩
    skills := [⟨agent_id, nameDesc.1, nameDesc.2, []⟩]
    defaultInputModes := ["text/plain"]
    defaultOutputModes := ["text/plain"] }

/-- A DefaultRequestHandler as configured in server.py: it stores the
one executor instance it was constructed with and uses it for every
request it handles. -/
structure Handler where
  agent_executor : ExecutorInstance
deriving DecidableEq

/-- One mounted sub-application of server.py: the mount path
`"/" ++ agent_id`, the capability card, the rpc_url `"/a2a"`, and the
request handler. -/
structure Route where
  path : String
  card : AgentCard
  rpc_url : String
  handler : Handler
deriving DecidableEq

def AGENT_IDS : List String := ["add2-agent"]

def PORT : Nat := 9100

/-- Embedding of the routes loop of server.py: for each agent id, call
`get_executor` once, build the card once, and mount the sub-application.
A registry miss raises out of the loop (server startup fails). -/
def buildRoutes (reg : Registry) :
    Nat → List String → Except PyError (List Route × Nat)
  | counter, [] => .ok ([], counter)
  | counter, agent_id :: rest => do
    let (inst, counter2) ← get_executor reg counter agent_id
    let route : Route :=
      { path := "/" ++ agent_id
        card := make_agent_card agent_id PORT
        rpc_url := "/" ++ fixedRpcPath
        handler := ⟨inst⟩ }
    let (routes, counter3) ← buildRoutes reg counter2 rest
    .ok (route :: routes, counter3)

/-- The whole startup of server.py: register all agents, then build the
routes of the multi-agent application. -/
def serverSetup : Except PyError (List Route × Nat) :=
  buildRoutes startupRegistry 0 AGENT_IDS

/-- The mounted routes of the running server. -/
def theRoutes : List Route :=
  (serverSetup.toOption.map Prod.fst).getD []

/-- The bridge instance that serves invocation number `k` against
`agent_id`: the handler mounted for that path uses its stored executor
for every request, so the invocation number does not enter the result. -/
def bridgeForInvocation (routes : List Route) (agent_id : String) (_k : Nat) :
    Option ExecutorInstance :=
  (routes.find? (fun r => r.path = "/" ++ agent_id)).map (fun r => r.handler.agent_executor)

/-- Whether an invocation outcome is a normal return. -/
def okOutcome : Except PyError Unit → Bool
  | .ok _ => true
  | .error _ => false

/-- A backend that behaves well: the handle loads, the webhook call
succeeds, and two log lines exist of which the last is the result. -/
def demoBackend : BackendBehavior :=
  { loadResult := .ok ()
    webhookResult := fun _ => .ok ()
    logsResult := .ok ["agent add2-agent started", "Result: 7"] }

/-- A backend whose agent handle cannot be loaded. -/
def downBackend : BackendBehavior :=
  { loadResult := .error (.exception "connection refused")
    webhookResult := fun _ => .ok ()
    logsResult := .ok [] }

/-! Helper lemmas about the registry embedding. -/

/-- Replacing the entry for `agent_id` does not change which entries
have key `agent_id`. -/
theorem comp_register_key (agent_id : String) (f : ExecutorClass) :
    ((fun p : String × ExecutorClass => decide (p.1 = agent_id)) ∘
        (fun p => if p.1 = agent_id then (agent_id, f) else p)) =
      (fun p : String × ExecutorClass => decide (p.1 = agent_id)) := by
  funext p
  by_cases h : p.1 = agent_id <;> simp [Function.comp, h]

/-- After `register_agent`, looking the identifier up yields exactly the
factory just registered. -/
theorem lookup_register (reg : Registry) (agent_id : String) (f : ExecutorClass) :
    registryLookup (register_agent reg agent_id f) agent_id = some f := by
  unfold register_agent registryLookup
  by_cases h : reg.any (fun p => p.1 = agent_id) = true
  · rw [if_pos h]
    rw [List.find?_map, comp_register_key]
    have hs : (reg.find? (fun p => decide (p.1 = agent_id))).isSome := by
      rw [List.find?_isSome]
      exact List.any_eq_true.mp h
    obtain ⟨q, hq⟩ := Option.isSome_iff_exists.mp hs
    have hkey : q.1 = agent_id := by
      have hp := List.find?_some hq
      simpa using hp
    rw [hq]
    simp [hkey]
  · rw [if_neg h]
    have hnone : reg.find? (fun p => decide (p.1 = agent_id)) = none := by
      rw [List.find?_eq_none]
      intro x hx hpx
      simp only [Bool.not_eq_true] at h
      rw [List.any_eq_false] at h
      exact h x hx hpx
    rw [List.find?_append, hnone]
    simp

/-- How `register_agent` changes the number of entries bound to the
registered identifier: unchanged when it overwrites, one more when it
appends. -/
theorem countP_register (reg : Registry) (agent_id : String) (f : ExecutorClass) :
    (register_agent reg agent_id f).countP (fun p => p.1 = agent_id) =
      if reg.any (fun p => p.1 = agent_id)
      then reg.countP (fun p => p.1 = agent_id)
      else reg.countP (fun p => p.1 = agent_id) + 1 := by
  unfold register_agent
  by_cases h : reg.any (fun p => p.1 = agent_id) = true
  · rw [if_pos h, if_pos h]
    rw [List.countP_map, comp_register_key]
  · rw [if_neg h, if_neg h]
    rw [List.countP_append]
    simp

/-- C4: for every identifier registered in the registry, `get_executor`
returns a fresh instance of exactly the registered class (fresh: two
successive resolutions yield instances with distinct serial numbers),
and for every identifier with no entry it raises the ValueError
"No executor registered for agent ID: ..." (the NotRegistered failure),
never constructing a default executor. -/
theorem C4_resolve (reg : Registry) (counter : Nat) (agent_id : String) :
    (∀ executor_cls, registryLookup reg agent_id = some executor_cls →
        get_executor reg counter agent_id = .ok (⟨executor_cls, counter⟩, counter + 1)) ∧
    (registryLookup reg agent_id = none →
        get_executor reg counter agent_id =
          .error (.valueError ("No executor registered for agent ID: " ++ agent_id))) ∧
    (∀ inst1 c1 inst2 c2, get_executor reg counter agent_id = .ok (inst1, c1) →
        get_executor reg c1 agent_id = .ok (inst2, c2) → inst1 ≠ inst2) := by
  refine ⟨?_, ?_, ?_⟩
  · intro executor_cls hc
    simp [get_executor, hc]
  · intro hn
    simp [get_executor, hn]
  · intro inst1 c1 inst2 c2 h1 h2
    cases hc : registryLookup reg agent_id with
    | none => simp [get_executor, hc] at h1
    | some executor_cls =>
      simp only [get_executor, hc, Except.ok.injEq, Prod.mk.injEq] at h1 h2
      obtain ⟨hi1, hc1⟩ := h1
      obtain ⟨hi2, _⟩ := h2
      intro heq
      rw [← hi1, ← hi2] at heq
      have : counter = c1 := congrArg ExecutorInstance.instId heq
      omega

/-- C4 witness: on the startup registry, resolving the registered
identifier yields a fresh Add2Executor instance, resolving a missing
identifier fails with the NotRegistered ValueError, and two successive
resolutions yield distinct instances. -/
theorem C4_resolve_witness :
    get_executor startupRegistry 0 "add2-agent" = .ok (⟨Add2ExecutorClass, 0⟩, 1) ∧
    get_executor startupRegistry 0 "echo-agent" =
      .error (.valueError "No executor registered for agent ID: echo-agent") ∧
    (⟨Add2ExecutorClass, 0⟩ : ExecutorInstance) ≠ ⟨Add2ExecutorClass, 1⟩ :=
  ⟨(C4_resolve startupRegistry 0 "add2-agent").1 Add2ExecutorClass (by decide),
   (C4_resolve startupRegistry 0 "echo-agent").2.1 (by decide),
   (C4_resolve startupRegistry 0 "add2-agent").2.2 ⟨Add2ExecutorClass, 0⟩ 1
     ⟨Add2ExecutorClass, 1⟩ 2 (by decide) (by decide)⟩

/-- C5: for every identifier (registered or not) and every port, the
URL of the capability card is exactly the base address, a slash, the
identifier, a slash, and the fixed RPC sub-path — the same shape the
gateway uses when it mounts the sub-application at "/" ++ identifier
with rpc_url "/" ++ fixedRpcPath. -/
theorem C5_card_url (agent_id : String) (port : Nat) :
    (make_agent_card agent_id port).url =
      baseAddress port ++ "/" ++ agent_id ++ "/" ++ fixedRpcPath := by
  have h : ("/a2a" : String) = "/" ++ fixedRpcPath := by decide
  simp only [make_agent_card, baseAddress, h, ← String.append_assoc]

/-- C8: for every identifier absent from the fixed skill table the card
builder still returns a card, whose single skill carries the placeholder
pair "Unknown"/"Unknown" as name and description (and whose card
description is the same placeholder). -/
theorem C8_unknown_placeholder (agent_id : String) (port : Nat)
    (h : skill_map.find? (fun p => p.1 = agent_id) = none) :
    (make_agent_card agent_id port).skills =
      [⟨agent_id, "Unknown", "Unknown", []⟩] ∧
    (make_agent_card agent_id port).description = "Unknown" := by
  constructor
  · simp [make_agent_card, skillMapGet, h]
  · simp [make_agent_card, skillMapGet, h]

/-- C8 witness: the identifier "mystery-agent" is not in the skill
table, and its card uses the placeholder skill. -/
theorem C8_unknown_placeholder_witness :
    skill_map.find? (fun p => p.1 = "mystery-agent") = none ∧
    (make_agent_card "mystery-agent" 9100).skills =
      [⟨"mystery-agent", "Unknown", "Unknown", []⟩] ∧
    (make_agent_card "mystery-agent" 9100).description = "Unknown" :=
  ⟨by decide, C8_unknown_placeholder "mystery-agent" 9100 (by decide)⟩

/-- C9: registering factories f1 then f2 under the same identifier in a
registry that (like every Python dict state) holds at most one entry for
that identifier leaves the identifier bound to exactly one factory, the
most recent one f2, and a subsequent `get_executor` constructs the
bridge from f2. -/
theorem C9_last_write_wins (reg : Registry) (agent_id : String)
    (f1 f2 : ExecutorClass) (counter : Nat)
    (h : reg.countP (fun p => p.1 = agent_id) ≤ 1) :
    registryLookup (register_agent (register_agent reg agent_id f1) agent_id f2) agent_id
      = some f2 ∧
    (register_agent (register_agent reg agent_id f1) agent_id f2).countP
      (fun p => p.1 = agent_id) = 1 ∧
    get_executor (register_agent (register_agent reg agent_id f1) agent_id f2) counter agent_id
      = .ok (⟨f2, counter⟩, counter + 1) := by
  have hl := lookup_register (register_agent reg agent_id f1) agent_id f2
  have hc1 : (register_agent reg agent_id f1).countP (fun p => p.1 = agent_id) = 1 := by
    rw [countP_register]
    by_cases hany : reg.any (fun p => p.1 = agent_id) = true
    · rw [if_pos hany]
      have hpos : 0 < reg.countP (fun p => p.1 = agent_id) := by
        rw [List.countP_pos_iff]
        exact List.any_eq_true.mp hany
      omega
    · rw [if_neg hany]
      have h0 : reg.countP (fun p => p.1 = agent_id) = 0 := by
        rw [List.countP_eq_zero]
        intro a ha
        simp only [Bool.not_eq_true] at hany
        rw [List.any_eq_false] at hany
        exact hany a ha
      omega
  have hany1 : (register_agent reg agent_id f1).any (fun p => p.1 = agent_id) = true := by
    rw [List.any_eq_true]
    rw [← List.countP_pos_iff]
    omega
  have hc2 : (register_agent (register_agent reg agent_id f1) agent_id f2).countP
      (fun p => p.1 = agent_id) = 1 := by
    rw [countP_register, if_pos hany1]
    exact hc1
  refine ⟨hl, hc2, ?_⟩
  simp [get_executor, hl]

/-- C9 witness: registering two distinct classes for "add2-agent" on the
startup registry leaves one entry, bound to the second class, and
resolution constructs from it. -/
theorem C9_last_write_wins_witness :
    startupRegistry.countP (fun p => p.1 = "add2-agent") ≤ 1 ∧
    (registryLookup
        (register_agent (register_agent startupRegistry "add2-agent" ⟨"FooExecutor"⟩)
          "add2-agent" ⟨"BarExecutor"⟩) "add2-agent" = some ⟨"BarExecutor"⟩ ∧
      (register_agent (register_agent startupRegistry "add2-agent" ⟨"FooExecutor"⟩)
          "add2-agent" ⟨"BarExecutor"⟩).countP (fun p => p.1 = "add2-agent") = 1 ∧
      get_executor
          (register_agent (register_agent startupRegistry "add2-agent" ⟨"FooExecutor"⟩)
            "add2-agent" ⟨"BarExecutor"⟩) 0 "add2-agent"
        = .ok (⟨⟨"BarExecutor"⟩, 0⟩, 1)) :=
  ⟨by decide,
   C9_last_write_wins startupRegistry "add2-agent" ⟨"FooExecutor"⟩ ⟨"BarExecutor"⟩ 0 (by decide)⟩

/-- C10: the capability card of any identifier and port has name
identifier ++ " agent", version "1.0", exactly one skill whose id is the
identifier, streaming declared false, and "text/plain" as the only input
and output content kind; the skill-table fallback never reaches the
card's name or URL, which follow the same formulas for every
identifier. -/
theorem C10_card_fields (agent_id : String) (port : Nat) :
    (make_agent_card agent_id port).name = agent_id ++ " agent" ∧
    (make_agent_card agent_id port).version = "1.0" ∧
    (make_agent_card agent_id port).skills =
      [⟨agent_id, (skillMapGet agent_id).1, (skillMapGet agent_id).2, []⟩] ∧
    (make_agent_card agent_id port).skills.map AgentSkill.id = [agent_id] ∧
    (make_agent_card agent_id port).capabilities.streaming = false ∧
    (make_agent_card agent_id port).defaultInputModes = ["text/plain"] ∧
    (make_agent_card agent_id port).defaultOutputModes = ["text/plain"] ∧
    (make_agent_card agent_id port).url =
      "http://127.0.0.1:" ++ toString port ++ "/" ++ agent_id ++ "/a2a" := by
  refine ⟨rfl, rfl, rfl, ?_, rfl, rfl, rfl, rfl⟩
  simp [make_agent_card]

/-- C1 counterexample: the claim that two invocations never share a
bridge instance is false. The routes loop calls `get_executor` once at
startup, so invocation 0 and invocation 1 against "add2-agent" are both
served by the same instance (the Add2Executor with serial number 0). -/
theorem C1_counterexample :
    bridgeForInvocation theRoutes "add2-agent" 0 = some ⟨Add2ExecutorClass, 0⟩ ∧
    bridgeForInvocation theRoutes "add2-agent" 1 = some ⟨Add2ExecutorClass, 0⟩ := by
  decide

/-- C1 amended: the gateway constructs exactly one bridge instance per
identifier in AGENT_IDS at startup (the final creation counter equals
the number of identifiers) and every invocation against an identifier is
served by that same stored instance; the bridge class itself keeps no
per-request state, but instances are shared, not per-invocation. -/
theorem C1_startup_bridge_sharing (agent_id : String) (k k2 : Nat) :
    bridgeForInvocation theRoutes agent_id k = bridgeForInvocation theRoutes agent_id k2 ∧
    serverSetup.toOption.map Prod.snd = some AGENT_IDS.length :=
  ⟨rfl, by decide⟩

/-- C2 counterexample: the claim that every failure is delivered as
exactly one terminal error event through the sink is false. When the
backend handle fails to load, the invocation delivers zero events and
the exception escapes the bridge as a raised error. -/
theorem C2_counterexample :
    (Add2Executor.execute downBackend "5").1.events = [] ∧
    (Add2Executor.execute downBackend "5").1.events.length ≠ 1 ∧
    (Add2Executor.execute downBackend "5").2 = .error (.exception "connection refused") := by
  decide

/-- C2 amended: execute has no error handler, so a failing invocation
delivers no event through the sink and the failure propagates as a
raised exception past the bridge boundary; the sink receives exactly one
event when and only when the invocation fully succeeds. -/
theorem C2_events_iff_success (b : BackendBehavior) (input : String) :
    (Add2Executor.execute b input).1.events.length =
      if okOutcome (Add2Executor.execute b input).2 then 1 else 0 := by
  unfold Add2Executor.execute
  rcases hld : b.loadResult with e | u
  · simp [hld, okOutcome]
  · rcases hpi : pyInt input with e | val
    · simp [hld, hpi, okOutcome]
    · rcases hw : b.webhookResult ⟨val⟩ with e | u2
      · simp [hld, hpi, hw, okOutcome]
      · rcases hlg : b.logsResult with e | logs
        · simp [hld, hpi, hw, hlg, okOutcome]
        · rcases hlast : logs.getLast? with _ | r
          · simp [hld, hpi, hw, hlg, hlast, okOutcome]
          · simp [hld, hpi, hw, hlg, hlast, okOutcome]

/-- C3 counterexample: the claim that non-numeric input produces exactly
one InvalidPayload event and no backend call is false. On input "abc"
(with a healthy backend) the sink stays empty, the ValueError escapes
uncaught, and the backend handle was already loaded, since loading
precedes parsing. -/
theorem C3_counterexample :
    (Add2Executor.execute demoBackend "abc").1.events = [] ∧
    (Add2Executor.execute demoBackend "abc").1.loads = 1 ∧
    (Add2Executor.execute demoBackend "abc").1.webhookCalls = [] ∧
    (Add2Executor.execute demoBackend "abc").2 =
      .error (.valueError "invalid literal for int() with base 10: abc") := by
  decide

/-- C3 amended: for every raw input the integer parse rejects, execute
raises the uncaught parse ValueError, emits no event into the sink, and
performs no backend webhook invocation — but it does load the backend
handle once, because the load precedes the parse. -/
theorem C3_invalid_input (b : BackendBehavior) (s : String) (e : PyError)
    (hload : b.loadResult = .ok ()) (hparse : pyInt s = .error e) :
    Add2Executor.execute b s = (⟨1, [], []⟩, .error e) := by
  simp [Add2Executor.execute, hload, hparse]

/-- C3 witness: the amended behavior at the concrete input "abc" with
the healthy demo backend. -/
theorem C3_invalid_input_witness :
    demoBackend.loadResult = .ok () ∧
    pyInt "abc" = .error (.valueError "invalid literal for int() with base 10: abc") ∧
    Add2Executor.execute demoBackend "abc" =
      (⟨1, [], []⟩, .error (.valueError "invalid literal for int() with base 10: abc")) :=
  ⟨rfl, by decide,
   C3_invalid_input demoBackend "abc"
     (.valueError "invalid literal for int() with base 10: abc") rfl (by decide)⟩

/-- C6 counterexample: the claim that cancel yields exactly one
CancellationUnsupported failure event through the sink is false — cancel
enqueues no event at all. -/
theorem C6_counterexample :
    (Add2Executor.cancel).1.events.length ≠ 1 := by
  decide

/-- C6 amended: cancel never enqueues any event (success or failure),
never touches the backend, and raises an uncaught Exception with message
"cancel not supported"; reporting the unsupported cancellation to the
caller is left to the surrounding framework, and no best-effort backend
cancellation is attempted. -/
theorem C6_cancel_behavior :
    Add2Executor.cancel = (⟨0, [], []⟩, .error (.exception "cancel not supported")) := rfl

/-- C7: when the raw user input is "5" and the backend loads, accepts
the webhook and returns a nonempty log list, execute parses the input to
the integer 5, invokes the webhook exactly once with payload value 5,
and enqueues exactly one event whose text is the last log entry. -/
theorem C7_happy_path (b : BackendBehavior) (logs : List String) (lastLog : String)
    (hload : b.loadResult = .ok ()) (hweb : b.webhookResult ⟨5⟩ = .ok ())
    (hlogs : b.logsResult = .ok logs) (hlast : logs.getLast? = some lastLog) :
    Add2Executor.execute b "5" = (⟨1, [⟨5⟩], [lastLog]⟩, .ok ()) := by
  have h5 : pyInt "5" = .ok 5 := by decide
  simp [Add2Executor.execute, hload, h5, hweb, hlogs, hlast]

/-- C7 witness: the happy path at the concrete demo backend, whose last
log line is "Result: 7". -/
theorem C7_happy_path_witness :
    demoBackend.loadResult = .ok () ∧
    demoBackend.webhookResult ⟨5⟩ = .ok () ∧
    demoBackend.logsResult = .ok ["agent add2-agent started", "Result: 7"] ∧
    Add2Executor.execute demoBackend "5" = (⟨1, [⟨5⟩], ["Result: 7"]⟩, .ok ()) :=
  ⟨rfl, rfl, rfl,
   C7_happy_path demoBackend ["agent add2-agent started", "Result: 7"] "Result: 7"
     rfl rfl rfl (by decide)⟩

end A2AGateway
